import Mathlib

/-
Verification of the ohos-vsync ownership wrapper (src/lib.rs).

The native vsync service is opaque to the wrapper, so it is modelled as an
environment `NativeEnv` that fixes the return value of every native
operation.  Each wrapper operation is embedded as a Lean function returning
its Rust result together with the ordered trace of native calls it performs,
including the calls performed by the implicit `Drop` at scope end where the
Rust code relies on it.  Raw `*mut OH_NativeVSync` pointers are modelled as
natural numbers (the address value, null = 0).  We model release builds:
`debug_assert!` is a no-op.
-/

/-- A raw native handle pointer value; 0 models the null pointer. -/
abbrev RawHandle := Nat

/-- The error enum `NativeVsyncError` from src/lib.rs. -/
inductive NativeVsyncError where
  | InvalidArgs : NativeVsyncError
  | CreateFailed : NativeVsyncError
  | RawErr : Int → NativeVsyncError
deriving DecidableEq, Repr

/-- One invocation of a native vsync-service operation, as recorded in a
call trace. -/
inductive NativeCall where
  | create : List Nat → Nat → NativeCall
  | destroy : RawHandle → NativeCall
  | requestFrame : RawHandle → Nat → Nat → NativeCall
  | getPeriod : RawHandle → NativeCall
deriving DecidableEq, Repr

/-- Model of the opaque native vsync service: the value each native
operation returns when invoked.  `getPeriodRet` yields the status code and
the signed 64-bit value written to the out-parameter (`none` when the
service leaves the out-parameter untouched). -/
structure NativeEnv where
  createRet : List Nat → Nat → RawHandle
  requestFrameRet : RawHandle → Nat → Nat → Int
  getPeriodRet : RawHandle → Int × Option Int

/-- The struct `NativeVsync { raw: *mut OH_NativeVSync }`. -/
structure NativeVsync where
  raw : RawHandle
deriving DecidableEq, Repr

/-- `u32::MAX + 1`: a `usize → u32` conversion succeeds exactly below this. -/
def u32Size : Nat := 2 ^ 32

/-- Reinterpretation of a signed 64-bit value as unsigned (`as u64`). -/
def i64AsU64 (x : Int) : Nat := (x % (2 ^ 64 : Int)).toNat

namespace NativeVsync

/-- `NativeVsync::new`: convert the name length to `u32`, failing with
`InvalidArgs` before any native call when it does not fit; otherwise call
`OH_NativeVSync_Create` and wrap whatever handle it returns in `Ok`. -/
def new (env : NativeEnv) (name : List Nat) :
    Except NativeVsyncError NativeVsync × List NativeCall :=
  if name.length < u32Size then
    (Except.ok ⟨env.createRet name name.length⟩,
      [NativeCall.create name name.length])
  else
    (Except.error NativeVsyncError.InvalidArgs, [])

/-- `NativeVsync::from_raw` (release build, so the two `debug_assert!`
checks are no-ops): store the pointer unchanged; no native call. -/
def from_raw (p : RawHandle) : NativeVsync × List NativeCall :=
  (⟨p⟩, [])

/-- `NativeVsync::into_raw`: read out the pointer and `core::mem::forget`
self, so the drop glue never runs; no native call. -/
def into_raw (v : NativeVsync) : RawHandle × List NativeCall :=
  (v.raw, [])

/-- `Drop for NativeVsync`: the native calls performed when a still-owned
wrapper goes out of scope. -/
def dropCalls (v : NativeVsync) : List NativeCall :=
  [NativeCall.destroy v.raw]

/-- `NativeVsync::request_raw_callback` (borrowing, `&self`): forward to
`OH_NativeVSync_RequestFrame`; `Ok` on status 0, else `RawErr(res)`. -/
def request_raw_callback (env : NativeEnv) (v : NativeVsync)
    (cb userData : Nat) :
    Except NativeVsyncError Unit × List NativeCall :=
  let res := env.requestFrameRet v.raw cb userData
  if res = 0 then
    (Except.ok (), [NativeCall.requestFrame v.raw cb userData])
  else
    (Except.error (NativeVsyncError.RawErr res),
      [NativeCall.requestFrame v.raw cb userData])

/-- `NativeVsync::request_raw_callback_with_self` (consuming): call
`OH_NativeVSync_RequestFrame` with `self.raw` as the user data.  On status
0 `core::mem::forget(self)` disarms the drop glue; on any other status
`self` is dropped on the way out, destroying the handle. -/
def request_raw_callback_with_self (env : NativeEnv) (v : NativeVsync)
    (cb : Nat) :
    Except NativeVsyncError Unit × List NativeCall :=
  let res := env.requestFrameRet v.raw cb v.raw
  if res = 0 then
    (Except.ok (), [NativeCall.requestFrame v.raw cb v.raw])
  else
    (Except.error (NativeVsyncError.RawErr res),
      [NativeCall.requestFrame v.raw cb v.raw, NativeCall.destroy v.raw])

/-- `NativeVsync::get_period` (release build): call
`OH_NativeVSync_GetPeriod` with an out-parameter initialised to `-1`.  On
status 0 return the written value cast `as u64`; otherwise log and return
`RawErr(res)`. -/
def get_period (env : NativeEnv) (v : NativeVsync) :
    Except NativeVsyncError Nat × List NativeCall :=
  let sr := env.getPeriodRet v.raw
  let period : Int := sr.2.getD (-1)
  if sr.1 = 0 then
    (Except.ok (i64AsU64 period), [NativeCall.getPeriod v.raw])
  else
    (Except.error (NativeVsyncError.RawErr sr.1), [NativeCall.getPeriod v.raw])

/-- The borrowing operations (`&self`); they never consume the wrapper. -/
inductive BorrowOp where
  | requestCb : Nat → Nat → BorrowOp
  | periodQuery : BorrowOp
deriving DecidableEq, Repr

/-- The native calls performed by one borrowing operation on `v`. -/
def borrowOpCalls (env : NativeEnv) (v : NativeVsync) :
    BorrowOp → List NativeCall
  | BorrowOp.requestCb cb ud => (request_raw_callback env v cb ud).2
  | BorrowOp.periodQuery => (get_period env v).2

/-- The complete native-call trace of a wrapper holding handle `p` that is
used through an arbitrary sequence of borrowing operations and then goes
out of scope without ever being consumed. -/
def lifecycleCalls (env : NativeEnv) (p : RawHandle)
    (ops : List BorrowOp) : List NativeCall :=
  (from_raw p).2 ++ (ops.map (borrowOpCalls env (from_raw p).1)).flatten
    ++ dropCalls (from_raw p).1

end NativeVsync

/-- A stub service on which every operation fails with a nonzero status. -/
def stubEnvErr : NativeEnv :=
  ⟨fun _ _ => 5, fun _ _ _ => 7, fun _ => (3, some 42)⟩

/-- A stub service on which every operation succeeds: create yields handle
0xABCD and get-period writes 16666667. -/
def stubEnvOk : NativeEnv :=
  ⟨fun _ _ => 43981, fun _ _ _ => 0, fun _ => (0, some 16666667)⟩

/-- A stub service whose get-period reports success but writes `-1`. -/
def stubEnvNeg : NativeEnv :=
  ⟨fun _ _ => 1, fun _ _ _ => 0, fun _ => (0, some (-1))⟩

/-- A stub service whose create returns the null handle. -/
def stubEnvNull : NativeEnv :=
  ⟨fun _ _ => 0, fun _ _ _ => 0, fun _ => (0, some 1)⟩

namespace NativeVsync

/-- A borrowing operation performs no destroy call on any handle. -/
theorem borrowOpCalls_no_destroy (env : NativeEnv) (v : NativeVsync)
    (op : BorrowOp) (h : RawHandle) :
    (borrowOpCalls env v op).count (NativeCall.destroy h) = 0 := by
  cases op with
  | requestCb cb ud =>
      simp only [borrowOpCalls, request_raw_callback]
      split <;> simp [List.count_cons, List.count_nil]
  | periodQuery =>
      simp only [borrowOpCalls, get_period]
      split <;> simp [List.count_cons, List.count_nil]

end NativeVsync

/-- C1: when the consuming frame request receives a nonzero status from the
native request-frame operation, it returns `Err(RawErr(code))` with that
status and the native destroy operation is invoked exactly once on the
wrapper's handle as part of returning (ownership is not transferred: the
drop glue runs). -/
theorem consuming_request_err_destroys_once (env : NativeEnv)
    (v : NativeVsync) (cb : Nat)
    (h : env.requestFrameRet v.raw cb v.raw ≠ 0) :
    (NativeVsync.request_raw_callback_with_self env v cb).1 =
      Except.error (NativeVsyncError.RawErr (env.requestFrameRet v.raw cb v.raw)) ∧
    (NativeVsync.request_raw_callback_with_self env v cb).2.count
      (NativeCall.destroy v.raw) = 1 := by
  refine ⟨?_, ?_⟩ <;>
    simp [NativeVsync.request_raw_callback_with_self, h, List.count_cons,
      List.count_nil]

/-- Witness for C1 at the all-failing stub service. -/
theorem consuming_request_err_destroys_once_witness :
    stubEnvErr.requestFrameRet 9 2 9 ≠ 0 ∧
    ((NativeVsync.request_raw_callback_with_self stubEnvErr ⟨9⟩ 2).1 =
        Except.error (NativeVsyncError.RawErr (stubEnvErr.requestFrameRet 9 2 9)) ∧
      (NativeVsync.request_raw_callback_with_self stubEnvErr ⟨9⟩ 2).2.count
        (NativeCall.destroy 9) = 1) :=
  ⟨by decide, consuming_request_err_destroys_once stubEnvErr ⟨9⟩ 2 (by decide)⟩

/-- C2: when the consuming frame request receives status 0, it returns
`Ok(())`, its trace is exactly one request-frame call whose user data is the
wrapper's own raw handle, and in particular no destroy call occurs
(automatic destruction is disarmed by `core::mem::forget`). -/
theorem consuming_request_ok_no_destroy (env : NativeEnv)
    (v : NativeVsync) (cb : Nat)
    (h : env.requestFrameRet v.raw cb v.raw = 0) :
    (NativeVsync.request_raw_callback_with_self env v cb).1 = Except.ok () ∧
    (NativeVsync.request_raw_callback_with_self env v cb).2 =
      [NativeCall.requestFrame v.raw cb v.raw] := by
  simp [NativeVsync.request_raw_callback_with_self, h]

/-- Witness for C2 at the all-succeeding stub service. -/
theorem consuming_request_ok_no_destroy_witness :
    stubEnvOk.requestFrameRet 9 2 9 = 0 ∧
    ((NativeVsync.request_raw_callback_with_self stubEnvOk ⟨9⟩ 2).1 =
        Except.ok () ∧
      (NativeVsync.request_raw_callback_with_self stubEnvOk ⟨9⟩ 2).2 =
        [NativeCall.requestFrame 9 2 9]) :=
  ⟨by decide, consuming_request_ok_no_destroy stubEnvOk ⟨9⟩ 2 (by decide)⟩

/-- C3: a wrapper that is never consumed — it only undergoes borrowing
operations before going out of scope — has the native destroy operation
invoked exactly once on its handle over its whole lifetime, at scope end,
for every service behaviour and every sequence of borrowing operations. -/
theorem destroy_exactly_once (env : NativeEnv) (p : RawHandle)
    (ops : List NativeVsync.BorrowOp) :
    (NativeVsync.lifecycleCalls env p ops).count (NativeCall.destroy p) = 1 := by
  simp only [NativeVsync.lifecycleCalls, NativeVsync.from_raw,
    NativeVsync.dropCalls, List.count_append, List.nil_append]
  have hflat : ∀ l : List NativeVsync.BorrowOp,
      ((l.map (NativeVsync.borrowOpCalls env ⟨p⟩)).flatten).count
        (NativeCall.destroy p) = 0 := by
    intro l
    induction l with
    | nil => simp
    | cons op rest ih =>
        simp [List.count_append, ih,
          NativeVsync.borrowOpCalls_no_destroy env ⟨p⟩ op p]
  simp [hflat ops, List.count_cons]

/-- C4: `from_raw (into_raw v)` yields a wrapper holding the same handle;
releasing performs no native call, and over the whole round trip — release,
re-adoption, then the new wrapper's scope end — the native destroy operation
runs on that handle exactly once (no double-destroy, no leak). -/
theorem into_raw_from_raw_roundtrip (v : NativeVsync) :
    (NativeVsync.from_raw (NativeVsync.into_raw v).1).1 = v ∧
    ((NativeVsync.into_raw v).2 ++
        (NativeVsync.from_raw (NativeVsync.into_raw v).1).2 ++
        NativeVsync.dropCalls
          (NativeVsync.from_raw (NativeVsync.into_raw v).1).1).count
      (NativeCall.destroy v.raw) = 1 := by
  cases v
  refine ⟨rfl, ?_⟩
  simp [NativeVsync.into_raw, NativeVsync.from_raw, NativeVsync.dropCalls,
    List.count_cons]

/-- C5: for every name whose byte length does not fit in a `u32`, `new`
returns `Err(InvalidArgs)` and its native-call trace is empty. -/
theorem new_len_overflow (env : NativeEnv) (name : List Nat)
    (h : u32Size ≤ name.length) :
    NativeVsync.new env name =
      (Except.error NativeVsyncError.InvalidArgs, []) := by
  have hlt : ¬ name.length < u32Size := not_lt.mpr h
  simp [NativeVsync.new, hlt]

/-- Witness for C5 on a concrete name of 2^32 bytes. -/
theorem new_len_overflow_witness :
    u32Size ≤ (List.replicate u32Size 0).length ∧
    NativeVsync.new stubEnvOk (List.replicate u32Size 0) =
      (Except.error NativeVsyncError.InvalidArgs, []) :=
  ⟨by simp, new_len_overflow stubEnvOk (List.replicate u32Size 0) (by simp)⟩

/-- C6: for every name whose byte length fits in a `u32`, `new` returns
`Ok` wrapping exactly the handle the native create operation returned —
the result is `Ok` even when that handle is null, and is never
`CreateFailed`. -/
theorem new_wraps_native_handle (env : NativeEnv) (name : List Nat)
    (h : name.length < u32Size) :
    (NativeVsync.new env name).1 =
      Except.ok ⟨env.createRet name name.length⟩ := by
  simp [NativeVsync.new, h]

/-- Witness for C6: the name "test" against a stub whose create returns the
null handle is still wrapped in `Ok`. -/
theorem new_wraps_native_handle_witness :
    [116, 101, 115, 116].length < u32Size ∧
    (NativeVsync.new stubEnvNull [116, 101, 115, 116]).1 =
      Except.ok ⟨stubEnvNull.createRet [116, 101, 115, 116] 4⟩ :=
  ⟨by decide, new_wraps_native_handle stubEnvNull [116, 101, 115, 116]
    (by decide)⟩

/-- C7 counterexample: a service that reports status 0 but writes `-1` to
the out-parameter makes `get_period` return `Ok(2^64 - 1)` — not "exactly
the value the native operation wrote", since `2^64 - 1 ≠ -1`. -/
theorem get_period_exact_value_counterexample :
    stubEnvNeg.getPeriodRet 1 = (0, some (-1)) ∧
    (NativeVsync.get_period stubEnvNeg ⟨1⟩).1 = Except.ok (2 ^ 64 - 1) ∧
    ((2 ^ 64 - 1 : Nat) : Int) ≠ (-1 : Int) := by
  refine ⟨rfl, ?_, by decide⟩
  have e : i64AsU64 (-1) = 2 ^ 64 - 1 := by decide
  simp [NativeVsync.get_period, stubEnvNeg, e]

/-- C7 (amended): on status 0, `get_period` returns `Ok` with exactly the
value the native operation wrote whenever that value is a nonnegative i64
(negative writes are reinterpreted modulo 2^64); on nonzero status it
returns `Err(RawErr(code))` with exactly that code; in both cases the only
native call is the get-period call itself (the wrapper is untouched). -/
theorem get_period_spec (env : NativeEnv) (v : NativeVsync) :
    ((env.getPeriodRet v.raw).1 = 0 →
      ∀ p : Int, (env.getPeriodRet v.raw).2 = some p →
        0 ≤ p → p < 2 ^ 63 →
          (NativeVsync.get_period env v).1 = Except.ok p.toNat) ∧
    ((env.getPeriodRet v.raw).1 ≠ 0 →
      (NativeVsync.get_period env v).1 =
        Except.error (NativeVsyncError.RawErr (env.getPeriodRet v.raw).1)) ∧
    (NativeVsync.get_period env v).2 = [NativeCall.getPeriod v.raw] := by
  refine ⟨?_, ?_, ?_⟩
  · intro h0 p hp hlo hhi
    have hmod : p % (2 ^ 64 : Int) = p :=
      Int.emod_eq_of_lt hlo (lt_trans hhi (by norm_num))
    norm_num at hmod
    simp [NativeVsync.get_period, h0, hp, i64AsU64, hmod]
  · intro hne
    simp [NativeVsync.get_period, hne]
  · simp only [NativeVsync.get_period]
    split <;> rfl

/-- Witness for the amended C7, exercising both the success path (status 0,
written value 16666667) and the failure path (status 3). -/
theorem get_period_spec_witness :
    (stubEnvOk.getPeriodRet 1).1 = 0 ∧
    (NativeVsync.get_period stubEnvOk ⟨1⟩).1 =
      Except.ok (Int.toNat 16666667) ∧
    (stubEnvErr.getPeriodRet 1).1 ≠ 0 ∧
    (NativeVsync.get_period stubEnvErr ⟨1⟩).1 =
      Except.error (NativeVsyncError.RawErr 3) :=
  ⟨rfl,
    (get_period_spec stubEnvOk ⟨1⟩).1 rfl 16666667 rfl (by decide) (by decide),
    by decide,
    (get_period_spec stubEnvErr ⟨1⟩).2.1 (by decide)⟩

/-- C8: the borrowing frame request returns `Ok(())` exactly when the
native request-frame status is 0, returns `Err(RawErr(code))` with the
status passed through verbatim otherwise, and its trace is exactly the one
request-frame call — in particular no destroy, the wrapper keeps its
handle. -/
theorem request_callback_spec (env : NativeEnv) (v : NativeVsync)
    (cb ud : Nat) :
    ((NativeVsync.request_raw_callback env v cb ud).1 = Except.ok () ↔
      env.requestFrameRet v.raw cb ud = 0) ∧
    (env.requestFrameRet v.raw cb ud ≠ 0 →
      (NativeVsync.request_raw_callback env v cb ud).1 =
        Except.error
          (NativeVsyncError.RawErr (env.requestFrameRet v.raw cb ud))) ∧
    (NativeVsync.request_raw_callback env v cb ud).2 =
      [NativeCall.requestFrame v.raw cb ud] := by
  by_cases h : env.requestFrameRet v.raw cb ud = 0 <;>
    simp [NativeVsync.request_raw_callback, h]

/-- Witness for C8 on the failing stub (status 7). -/
theorem request_callback_spec_witness :
    stubEnvErr.requestFrameRet 4 2 3 ≠ 0 ∧
    (NativeVsync.request_raw_callback stubEnvErr ⟨4⟩ 2 3).1 =
      Except.error (NativeVsyncError.RawErr 7) :=
  ⟨by decide, (request_callback_spec stubEnvErr ⟨4⟩ 2 3).2.1 (by decide)⟩

/-- C9: in release builds (the modelled build: `debug_assert!` is a no-op),
when the native get-period operation reports status 0 but writes a
non-positive value `p`, `get_period` still returns `Ok` with `p`
reinterpreted as an unsigned 64-bit integer modulo 2^64, not an error. -/
theorem get_period_negative_reinterpreted (env : NativeEnv)
    (v : NativeVsync) (p : Int)
    (h0 : (env.getPeriodRet v.raw).1 = 0)
    (hp : (env.getPeriodRet v.raw).2 = some p)
    (hneg : p ≤ 0) :
    (NativeVsync.get_period env v).1 =
      Except.ok ((p % (2 ^ 64 : Int)).toNat) := by
  simp [NativeVsync.get_period, h0, hp, i64AsU64]

/-- Witness for C9: a written value of `-1` comes back as `2^64 - 1`. -/
theorem get_period_negative_reinterpreted_witness :
    (stubEnvNeg.getPeriodRet 1).1 = 0 ∧
    (stubEnvNeg.getPeriodRet 1).2 = some (-1) ∧
    (NativeVsync.get_period stubEnvNeg ⟨1⟩).1 = Except.ok (2 ^ 64 - 1) :=
  ⟨rfl, rfl, by
    have h := get_period_negative_reinterpreted stubEnvNeg ⟨1⟩ (-1) rfl rfl
      (by decide)
    have e : (((-1 : Int) % (2 ^ 64 : Int)).toNat) = 2 ^ 64 - 1 := by decide
    rw [e] at h
    exact h⟩

/-- C10: for every non-null raw handle `p`, `into_raw (from_raw p) = p`:
adoption stores the pointer unchanged and release returns it unchanged, and
neither operation performs any native call (in particular no destroy). -/
theorem from_raw_into_raw_identity (p : RawHandle) (h : p ≠ 0) :
    (NativeVsync.into_raw (NativeVsync.from_raw p).1).1 = p ∧
    (NativeVsync.from_raw p).2 = [] ∧
    (NativeVsync.into_raw (NativeVsync.from_raw p).1).2 = [] :=
  ⟨rfl, rfl, rfl⟩

/-- Witness for C10 at the concrete non-null handle 1. -/
theorem from_raw_into_raw_identity_witness :
    (1 : RawHandle) ≠ 0 ∧
    ((NativeVsync.into_raw (NativeVsync.from_raw 1).1).1 = 1 ∧
      (NativeVsync.from_raw 1).2 = [] ∧
      (NativeVsync.into_raw (NativeVsync.from_raw 1).1).2 = []) :=
  ⟨by decide, from_raw_into_raw_identity 1 (by decide)⟩



